import Mathlib

/-!
A shallow embedding of `src/rerunfailures/plugin.py` (pytest-rerunfailures,
ximenesuk fork) and proofs about its retry behaviour.

Modelling conventions:
* A pytest `Item` is abstracted by the per-attempt outcomes of its three
  phases (`setupResult`, `callResult`, `teardownResult` as functions of the
  zero-based attempt index), the truthiness of its `_evalxfail` attribute,
  and its node id.  Phase outcomes are pass/fail booleans; the host's
  `runtestprotocol` and `call_and_report` are modelled as report builders
  over these outcomes.
* Python locals that a code path may leave unassigned are modelled as
  `Option` values; reading `none` corresponds to Python raising
  `UnboundLocalError` for that name.
* Integer-valued options and marker arguments are modelled as `Nat`
  (every value the claims quantify over is a non-negative count).
* `time.sleep` and the teardown call are side effects; the embedding counts
  them (`sleeps`, `teardowns`) instead of performing them.
-/

/-- The three pytest phases (`report.when`). -/
inductive Phase where
  | setup
  | call
  | teardown
deriving DecidableEq, Repr

/-- A report outcome (`report.outcome`). -/
inductive Outcome where
  | passed
  | failed
  | skipped
deriving DecidableEq, Repr

/-- A pytest `TestReport`, restricted to the fields the plugin reads or
writes: the phase tag, the outcome, the optional `rerun` attribute the
plugin attaches (absent = `none`), and the node id. -/
structure PhaseReport where
  when : Phase
  outcome : Outcome
  rerun : Option Nat
  nodeid : String
deriving DecidableEq, Repr

/-- `report.passed` (true iff the outcome is `passed`). -/
def PhaseReport.passed (r : PhaseReport) : Bool :=
  r.outcome == Outcome.passed

/-- Build the report the host produces for one phase execution: `passed`
when the phase succeeded, `failed` otherwise; no `rerun` attribute yet. -/
def mkReport (ph : Phase) (ok : Bool) (nodeid : String) : PhaseReport :=
  { when := ph
    outcome := if ok then Outcome.passed else Outcome.failed
    rerun := none
    nodeid := nodeid }

/-- A test item, abstracted to what the plugin observes: the pass/fail
outcome of each phase on each zero-based attempt, the truthiness of the
cached `_evalxfail` attribute, and the node id. -/
structure Item where
  setupResult : Nat → Bool
  callResult : Nat → Bool
  teardownResult : Nat → Bool
  evalxfail : Bool
  nodeid : String

/-- The host's `runtestprotocol(item, nextitem, log)` for one attempt:
a setup report, then (only when setup passed) a call report, then a
teardown report. -/
def runtestprotocol (item : Item) (attempt : Nat) : List PhaseReport :=
  let setup_rep := mkReport Phase.setup (item.setupResult attempt) item.nodeid
  let teardown_rep := mkReport Phase.teardown (item.teardownResult attempt) item.nodeid
  if setup_rep.passed then
    [setup_rep, mkReport Phase.call (item.callResult attempt) item.nodeid, teardown_rep]
  else
    [setup_rep, teardown_rep]

/-- `reports[0].passed and reports[1].passed` (plugin.py line 111).  The
`and` short-circuits, so when setup failed the second element (then the
teardown report) is never decisive. -/
def passBreak : List PhaseReport → Bool
  | r0 :: r1 :: _ => r0.passed && r1.passed
  | _ => false

/-- The two sequential `break` conditions of the `repeat_run` loop body
(plugin.py lines 110-117): break on setup-and-call pass, else break when
`getattr(item, '_evalxfail', None)` is truthy. -/
def repeat_break (reports : List PhaseReport) (item : Item) : Bool :=
  passBreak reports || item.evalxfail

/-- The iteration trace of the `for i in range(reruns+1)` loop of
`repeat_run` (plugin.py lines 108-117), started at index `i` with `fuel`
further iterations allowed: one `runtestprotocol` report list per executed
iteration, stopping after an iteration whose break condition fires. -/
def repeat_run_iters (item : Item) (i : Nat) : Nat → List (List PhaseReport)
  | 0 => [runtestprotocol item i]
  | fuel + 1 =>
    let reports := runtestprotocol item i
    if repeat_break reports item then [reports]
    else reports :: repeat_run_iters item (i + 1) fuel

/-- `repeat_run(item, nextitem, reruns, log)` (plugin.py lines 104-119):
returns the reports of the last executed iteration and the loop index `i`
at exit.  The loop counts `i` up from 0 once per iteration, so the final
`i` is the number of executed iterations minus one. -/
def repeat_run (item : Item) (reruns : Nat) : List PhaseReport × Nat :=
  let iters := repeat_run_iters item 0 reruns
  (iters.getLastD [], iters.length - 1)

/-- Number of `runtestprotocol` invocations (whole setup/call/teardown
attempts) `repeat_run` performs. -/
def repeat_run_attempts (item : Item) (reruns : Nat) : Nat :=
  (repeat_run_iters item 0 reruns).length

/-- The report-forwarding loop of `pytest_runtest_protocol` (plugin.py
lines 94-98): every call-phase report gets `report.rerun = i` when
`i > 0`; other reports are forwarded unchanged. -/
def forward_reports (reports : List PhaseReport) (i : Nat) : List PhaseReport :=
  reports.map fun report =>
    if report.when == Phase.call then
      if i > 0 then { report with rerun := some i } else report
    else report

/-- Result of one run of the call-phase loop of `repeat_test_only`
(plugin.py lines 132-148): the last call report produced (`rep`), the loop
index at exit (`i`), the number of `call_and_report(item, "call")`
invocations, the number of `time.sleep` calls performed, and whether the
loop itself appended `rep` to `reports` (it does on the pass break and on
the xfail break, but not on range exhaustion). -/
structure CallLoopOut where
  rep : PhaseReport
  i : Nat
  calls : Nat
  sleeps : Nat
  appended : Bool
deriving DecidableEq, Repr

/-- The `for i in range(reruns+1)` call loop of `repeat_test_only`
(plugin.py lines 132-148), at index `i` with `fuel` further iterations
allowed.  Each iteration runs the call phase; it breaks on a passing
report, breaks when `_evalxfail` is truthy, and otherwise sleeps when
`pause > 0` — including on the last iteration, where the sleep still runs
before the range is exhausted. -/
def repeat_call_loop (item : Item) (pause : Nat) (i : Nat) : Nat → CallLoopOut
  | 0 =>
    let rep := mkReport Phase.call (item.callResult i) item.nodeid
    if rep.passed then ⟨rep, i, 1, 0, true⟩
    else if item.evalxfail then ⟨rep, i, 1, 0, true⟩
    else ⟨rep, i, 1, if pause > 0 then 1 else 0, false⟩
  | fuel + 1 =>
    let rep := mkReport Phase.call (item.callResult i) item.nodeid
    if rep.passed then ⟨rep, i, 1, 0, true⟩
    else if item.evalxfail then ⟨rep, i, 1, 0, true⟩
    else
      let s0 : Nat := if pause > 0 then 1 else 0
      let out := repeat_call_loop item pause (i + 1) fuel
      ⟨out.rep, out.i, out.calls + 1, out.sleeps + s0, out.appended⟩

/-- Result of `repeat_test_only`: the Python return value `(reports, i)`
when the function returns, or the name in the `UnboundLocalError` it
raises; plus counts of the call-phase invocations, sleeps and teardown
invocations it performed. -/
structure CallOnlyResult where
  result : Except String (List PhaseReport × Nat)
  calls : Nat
  sleeps : Nat
  teardowns : Nat
deriving Repr

/-- `repeat_test_only(item, nextitem, reruns, pause, log)` (plugin.py
lines 121-159).  Setup runs once.  When setup passed, the call loop runs;
its final report reaches `reports` either through the in-loop append (on a
pass or xfail break) or through the `if len(reports) == 1` fix-up after
exhaustion, so `reports` is `[setup, final call, teardown]` either way.
When setup failed, the loop is skipped, `reports` is `[setup_rep]` alone,
and the `len(reports) == 1` fix-up reads the never-assigned local `rep`:
Python raises `UnboundLocalError` there, before the teardown call.  (The
`_request`/`funcargs` cache handling on the host item is a host-state side
effect with no bearing on reports or counts and is not modelled.) -/
def repeat_test_only (item : Item) (reruns : Nat) (pause : Nat) : CallOnlyResult :=
  let setup_rep := mkReport Phase.setup (item.setupResult 0) item.nodeid
  if setup_rep.passed then
    let out := repeat_call_loop item pause 0 reruns
    let teardown_rep := mkReport Phase.teardown (item.teardownResult 0) item.nodeid
    { result := Except.ok ([setup_rep, out.rep, teardown_rep], out.i)
      calls := out.calls
      sleeps := out.sleeps
      teardowns := 1 }
  else
    { result := Except.error "UnboundLocalError: rep"
      calls := 0
      sleeps := 0
      teardowns := 0 }

/-- The pytest configuration state the plugin reads: `option.reruns`
(an int option with default 0, so after parsing it is `some 0` unless set;
the code's `is not None` test is `Option.isSome`), `collectonly` and
`usepdb`. -/
structure Config where
  reruns : Option Nat
  collectonly : Bool
  usepdb : Bool
deriving DecidableEq, Repr

/-- `check_options(config)` (plugin.py lines 24-29): whether
`pytest.UsageError("--reruns incompatible with --pdb")` is raised.  The
nested tests mirror the source: not collect-only, then `reruns != 0`,
then `usepdb`. -/
def check_options_raises (cfg : Config) : Bool :=
  if !cfg.collectonly then
    if cfg.reruns != some 0 then
      if cfg.usepdb then true else false
    else false
  else false

/-- A `flaky` marker: its positional argument list and the three keyword
arguments the plugin looks up (`none` = key absent from `kwargs`).
Positional `fixture_once` values go through Python's `bool(...)`, modelled
on `Nat` as `!= 0`. -/
structure Marker where
  args : List Nat
  kw_reruns : Option Nat
  kw_fixture_once : Option Bool
  kw_pause : Option Nat
deriving DecidableEq, Repr

/-- Outcome of the local-variable resolution block of
`pytest_runtest_protocol` (plugin.py lines 56-78): either the early
`return` (no marker and `option.reruns is None`), or the three locals
`reruns`, `fixture_once`, `pause` — each `none` when that code path left
the Python local unassigned. -/
inductive Resolution where
  | passThrough
  | resolved (reruns : Option Nat) (fixture_once : Option Bool) (pause : Option Nat)
deriving DecidableEq, Repr

/-- Lines 56-78 of plugin.py.  With a marker: `fixture_once`/`pause` get
defaults, then if `"reruns" in kwargs` all three come from kwargs; else if
positional args exist all three come from positions 0-2; else `reruns`
stays unassigned.  Without a marker: `reruns` comes from the global option
when that `is not None`, leaving `fixture_once` and `pause` unassigned;
otherwise the hook returns immediately. -/
def resolve_locals (rerun_marker : Option Marker) (cfg : Config) : Resolution :=
  match rerun_marker with
  | some m =>
    let fixture_once : Option Bool := some false
    let pause : Option Nat := some 0
    if m.kw_reruns.isSome then
      let reruns := m.kw_reruns
      let fixture_once := if m.kw_fixture_once.isSome then m.kw_fixture_once else fixture_once
      let pause := if m.kw_pause.isSome then m.kw_pause else pause
      Resolution.resolved reruns fixture_once pause
    else if 0 < m.args.length then
      let reruns := m.args.get? 0
      let fixture_once :=
        if 1 < m.args.length then (m.args.get? 1).map (fun a => a != 0) else fixture_once
      let pause := if 2 < m.args.length then m.args.get? 2 else pause
      Resolution.resolved reruns fixture_once pause
    else
      Resolution.resolved none fixture_once pause
  | none =>
    if cfg.reruns.isSome then
      Resolution.resolved cfg.reruns none none
    else
      Resolution.passThrough

/-- Observable outcome of `pytest_runtest_protocol`: the early `return`
(host default handling), the `pytest.UsageError` from `check_options`, an
`UnboundLocalError` on the named local, or normal completion with the
forwarded (rerun-annotated) reports and the strategy's returned index. -/
inductive ProtocolResult where
  | noOverride
  | usageError (msg : String)
  | unboundLocal (name : String)
  | ran (reports : List PhaseReport) (i : Nat)
deriving DecidableEq, Repr

/-- `pytest_runtest_protocol(item, nextitem)` (plugin.py lines 32-101),
after the marker has been looked up (`marker`).  Order as in the source:
resolve the locals (possibly returning early), call `check_options`, emit
`pytest_runtest_logstart` (a host notification, not modelled), then
dispatch on `fixture_once` — reading it, and then `reruns`/`pause` as
arguments, raises `UnboundLocalError` when unassigned — run the selected
strategy, annotate the call reports, and forward them. -/
def pytest_runtest_protocol (item : Item) (marker : Option Marker) (cfg : Config) :
    ProtocolResult :=
  match resolve_locals marker cfg with
  | Resolution.passThrough => ProtocolResult.noOverride
  | Resolution.resolved rerunsOpt foOpt pauseOpt =>
    if check_options_raises cfg then
      ProtocolResult.usageError "--reruns incompatible with --pdb"
    else
      match foOpt with
      | none => ProtocolResult.unboundLocal "fixture_once"
      | some fo =>
        if fo then
          match rerunsOpt with
          | none => ProtocolResult.unboundLocal "reruns"
          | some reruns =>
            match pauseOpt with
            | none => ProtocolResult.unboundLocal "pause"
            | some pause =>
              let r := repeat_test_only item reruns pause
              match r.result with
              | Except.error _ => ProtocolResult.unboundLocal "rep"
              | Except.ok (reports, i) => ProtocolResult.ran (forward_reports reports i) i
        else
          match rerunsOpt with
          | none => ProtocolResult.unboundLocal "reruns"
          | some reruns =>
            let (reports, i) := repeat_run item reruns
            ProtocolResult.ran (forward_reports reports i) i

/-- `pytest_report_teststatus(report)` (plugin.py lines 161-170): for a
call-phase report that has a `rerun` attribute greater than 0, a failed
outcome keeps category `failed` (`F`/`FAILED`) and a passed outcome gets
the new category `rerun` (`R`/`RERUN`); every other report falls through
(`none` = the hook returns `None` and the host default applies). -/
def pytest_report_teststatus (report : PhaseReport) : Option (String × String × String) :=
  if report.when == Phase.call then
    match report.rerun with
    | some n =>
      if n > 0 then
        if report.outcome == Outcome.failed then some ("failed", "F", "FAILED")
        else if report.outcome == Outcome.passed then some ("rerun", "R", "RERUN")
        else none
      else none
    | none => none
  else none

/-- `show_rerun(terminalreporter, lines)` (plugin.py lines 192-197):
append one `RERUN <nodeid>` line per report in the terminal reporter's
`rerun` stats bucket (an absent bucket behaves as the empty list). -/
def show_rerun (stats_rerun : List PhaseReport) (lines : List String) : List String :=
  lines ++ stats_rerun.map (fun rep => "RERUN " ++ rep.nodeid)

/-- The lines emitted by `pytest_terminal_summary(terminalreporter)`
(plugin.py lines 173-189).  `reportchars` is the configured report
character sequence (a falsy — empty — value returns early); for EVERY
character that is `r` or `R` the code calls `show_rerun` again, appending
another copy of the lines. -/
def pytest_terminal_summary (reportchars : List Char) (stats_rerun : List PhaseReport) :
    List String :=
  if reportchars.isEmpty then []
  else
    reportchars.foldl
      (fun lines ch => if ch == 'r' || ch == 'R' then show_rerun stats_rerun lines else lines)
      []

/-- The dedicated summary section header (`"rerun test summary info"`) is
emitted exactly when the collected line list is non-empty (plugin.py
lines 186-189). -/
def pytest_terminal_summary_header (reportchars : List Char)
    (stats_rerun : List PhaseReport) : Bool :=
  !(pytest_terminal_summary reportchars stats_rerun).isEmpty

/-! ## Concrete items and configurations used by witnesses -/

/-- An item whose setup always passes and whose call phase always fails,
with no xfail evaluation. -/
def itemAF : Item :=
  { setupResult := fun _ => true, callResult := fun _ => false,
    teardownResult := fun _ => true, evalxfail := false, nodeid := "test_af" }

/-- An item that fails its call phase on attempt 0 and passes from
attempt 1 on. -/
def itemK1 : Item :=
  { setupResult := fun _ => true, callResult := fun j => decide (1 ≤ j),
    teardownResult := fun _ => true, evalxfail := false, nodeid := "test_k1" }

/-- An always-failing item whose `_evalxfail` attribute is truthy. -/
def itemXF : Item :=
  { setupResult := fun _ => true, callResult := fun _ => false,
    teardownResult := fun _ => true, evalxfail := true, nodeid := "test_xf" }

/-- An item whose setup phase fails. -/
def itemSF : Item :=
  { setupResult := fun _ => false, callResult := fun _ => false,
    teardownResult := fun _ => true, evalxfail := false, nodeid := "test_sf" }

/-- The configuration after plain option parsing: `--reruns` at its
default 0, no collect-only, no pdb. -/
def cfgDefault : Config := { reruns := some 0, collectonly := false, usepdb := false }

/-- A configuration with `--reruns 2` and `--pdb`. -/
def cfgPdb : Config := { reruns := some 2, collectonly := false, usepdb := true }

/-- A `flaky(fixture_once=True)` marker: no positional argument and no
`reruns` keyword. -/
def markerFixtureOnceOnly : Marker :=
  { args := [], kw_reruns := none, kw_fixture_once := some true, kw_pause := none }

/-- A marker giving `reruns` by keyword alongside stray positional
arguments. -/
def markerKw : Marker :=
  { args := [9, 9], kw_reruns := some 4, kw_fixture_once := none, kw_pause := some 7 }

/-- A `flaky(3)` marker: `reruns` positional only. -/
def markerPos : Marker :=
  { args := [3], kw_reruns := none, kw_fixture_once := none, kw_pause := none }

/-- A `flaky(3, fixture_once=True, pause=7)` marker: `reruns` positional,
`fixture_once` and `pause` by keyword. -/
def markerPosWithKw : Marker :=
  { args := [3], kw_reruns := none, kw_fixture_once := some true, kw_pause := some 7 }

/-- A call-phase report sitting in the terminal reporter's `rerun` stats
bucket. -/
def repA : PhaseReport :=
  { when := Phase.call, outcome := Outcome.passed, rerun := some 1, nodeid := "test_a" }

/-! ## Loop lemmas for the WholeTest strategy (`repeat_run`) -/

/-- When setup passes and the call fails on attempt `i`, and the item has
no truthy xfail evaluation, neither break condition of the `repeat_run`
loop fires. -/
lemma repeat_break_false_of_fail (item : Item) (i : Nat)
    (hs : item.setupResult i = true) (hc : item.callResult i = false)
    (hx : item.evalxfail = false) :
    repeat_break (runtestprotocol item i) item = false := by
  simp [repeat_break, runtestprotocol, mkReport, PhaseReport.passed, hs, hc, hx, passBreak]

/-- When setup and call both pass on attempt `i`, the first break
condition of the `repeat_run` loop fires. -/
lemma repeat_break_true_of_pass (item : Item) (i : Nat)
    (hs : item.setupResult i = true) (hc : item.callResult i = true) :
    repeat_break (runtestprotocol item i) item = true := by
  simp [repeat_break, runtestprotocol, mkReport, PhaseReport.passed, hs, hc, passBreak]

/-- Trace of a `repeat_run` loop that never breaks: if every attempt has a
passing setup and a failing call and there is no xfail evaluation, the
loop runs out its full range: `fuel + 1` iterations, the last one at
attempt `i + fuel`. -/
lemma repeat_run_iters_all_fail (item : Item)
    (hs : ∀ j, item.setupResult j = true)
    (hc : ∀ j, item.callResult j = false)
    (hx : item.evalxfail = false) :
    ∀ fuel i : Nat,
      (repeat_run_iters item i fuel).length = fuel + 1 ∧
      ∀ d, (repeat_run_iters item i fuel).getLastD d = runtestprotocol item (i + fuel) := by
  intro fuel
  induction fuel with
  | zero =>
    intro i
    refine ⟨rfl, fun d => ?_⟩
    simp [repeat_run_iters]
  | succ n ih =>
    intro i
    have hbreak := repeat_break_false_of_fail item i (hs i) (hc i) hx
    constructor
    · simp only [repeat_run_iters, hbreak, Bool.false_eq_true, if_false, List.length_cons,
        (ih (i + 1)).1]
    · intro d
      simp only [repeat_run_iters, hbreak, Bool.false_eq_true, if_false, List.getLastD_cons]
      rw [(ih (i + 1)).2]
      congr 1
      omega

/-- Trace of a `repeat_run` loop on an item that fails its call on every
attempt before `K` and passes at attempt `K`: the loop breaks exactly at
iteration `K`. -/
lemma repeat_run_iters_pass_at (item : Item) (K : Nat)
    (hs : ∀ j, item.setupResult j = true)
    (hcf : ∀ j, j < K → item.callResult j = false)
    (hcp : item.callResult K = true)
    (hx : item.evalxfail = false) :
    ∀ fuel i : Nat, i ≤ K → K ≤ i + fuel →
      (repeat_run_iters item i fuel).length = K - i + 1 ∧
      ∀ d, (repeat_run_iters item i fuel).getLastD d = runtestprotocol item K := by
  intro fuel
  induction fuel with
  | zero =>
    intro i h1 h2
    have hiK : i = K := by omega
    subst hiK
    refine ⟨?_, fun d => ?_⟩
    · simp [repeat_run_iters]
    · simp [repeat_run_iters]
  | succ n ih =>
    intro i h1 h2
    by_cases hiK : i = K
    · subst hiK
      have hbreak := repeat_break_true_of_pass item i (hs i) hcp
      refine ⟨?_, fun d => ?_⟩ <;> simp [repeat_run_iters, hbreak]
    · have hlt : i < K := lt_of_le_of_ne h1 hiK
      have hbreak := repeat_break_false_of_fail item i (hs i) (hcf i hlt) hx
      have ihh := ih (i + 1) (by omega) (by omega)
      refine ⟨?_, fun d => ?_⟩
      · simp only [repeat_run_iters, hbreak, Bool.false_eq_true, if_false, List.length_cons,
          ihh.1]
        omega
      · simp only [repeat_run_iters, hbreak, Bool.false_eq_true, if_false, List.getLastD_cons]
        exact ihh.2 _

/-! ## Loop lemmas for the CallOnly strategy (`repeat_test_only`) -/

/-- When the item has a truthy xfail evaluation, the call loop performs
exactly one call: the first iteration breaks on the pass check or on the
xfail check. -/
lemma repeat_call_loop_calls_one (item : Item) (pause : Nat)
    (hx : item.evalxfail = true) :
    ∀ fuel i : Nat, (repeat_call_loop item pause i fuel).calls = 1 := by
  intro fuel i
  cases fuel <;> cases hcall : item.callResult i <;>
    simp [repeat_call_loop, mkReport, PhaseReport.passed, hcall, hx]

/-- With a positive pause and no xfail evaluation, the call loop sleeps
exactly once per failing call attempt — the sleep statement sits at the
end of the loop body, so it also runs on the final, range-exhausting
failing attempt. -/
lemma repeat_call_loop_sleeps_countP (item : Item) (pause : Nat)
    (hp : 0 < pause) (hx : item.evalxfail = false) :
    ∀ fuel i : Nat,
      (repeat_call_loop item pause i fuel).sleeps =
        (List.range' i (repeat_call_loop item pause i fuel).calls).countP
          (fun j => item.callResult j == false) := by
  intro fuel
  induction fuel with
  | zero =>
    intro i
    cases hcall : item.callResult i <;>
      simp [repeat_call_loop, mkReport, PhaseReport.passed, hcall, hx, hp]
  | succ n ih =>
    intro i
    cases hcall : item.callResult i
    · simp only [repeat_call_loop, mkReport, PhaseReport.passed, hcall, hx]
      simp only [show ((if (false : Bool) then Outcome.passed else Outcome.failed) ==
        Outcome.passed) = false from rfl]
      simp [hp, List.range'_succ, List.countP_cons, hcall, ih (i + 1)]
    · simp [repeat_call_loop, mkReport, PhaseReport.passed, hcall, hx, hp]

/-- Lines appended by the summary loop: every matching character appends
one full copy of the per-report `RERUN` lines. -/
lemma foldl_show_rerun (stats : List PhaseReport) :
    ∀ (chars : List Char) (acc : List String),
      chars.foldl
          (fun lines ch => if ch == 'r' || ch == 'R' then show_rerun stats lines else lines)
          acc =
        acc ++ (List.replicate (chars.countP (fun c => c == 'r' || c == 'R'))
          (stats.map (fun rep => "RERUN " ++ rep.nodeid))).flatten := by
  intro chars
  induction chars with
  | nil => intro acc; simp
  | cons c cs ih =>
    intro acc
    by_cases hc : (c == 'r' || c == 'R') = true
    · rw [List.foldl_cons, if_pos hc, show show_rerun stats acc =
          acc ++ stats.map (fun rep => "RERUN " ++ rep.nodeid) from rfl, ih,
        List.countP_cons]
      simp [hc, List.replicate_succ, List.append_assoc]
    · rw [List.foldl_cons, if_neg hc, ih, List.countP_cons]
      simp [hc]

/-! ## Claim theorems -/

/-- C1: for every repeatCount `N ≥ 0`, on an item whose call phase fails
on every attempt and that carries no xfail evaluation, `repeat_run`
performs exactly `N + 1` attempts, and the forwarded call-phase report has
outcome `failed`, with `rerun = N` when `N > 0` and no `rerun` attribute
when `N = 0`. -/
theorem C1_always_fail (N : Nat) (item : Item)
    (hs : ∀ j, item.setupResult j = true)
    (hc : ∀ j, item.callResult j = false)
    (hx : item.evalxfail = false) :
    repeat_run_attempts item N = N + 1 ∧
    (forward_reports (repeat_run item N).1 (repeat_run item N).2).get? 1 =
      some { when := Phase.call, outcome := Outcome.failed,
             rerun := if N > 0 then some N else none, nodeid := item.nodeid } := by
  have h := repeat_run_iters_all_fail item hs hc hx N 0
  have h2 : (repeat_run item N).1 = runtestprotocol item N := by
    unfold repeat_run
    simpa using h.2 []
  have h3 : (repeat_run item N).2 = N := by
    unfold repeat_run
    simp [h.1]
  refine ⟨?_, ?_⟩
  · unfold repeat_run_attempts
    exact h.1
  · rw [h2, h3]
    simp only [runtestprotocol, mkReport, PhaseReport.passed, hs N, hc N, forward_reports]
    by_cases hN : N > 0 <;> simp [hN]

/-- C1 witness: the always-failing item under `reruns = 2` performs 3
attempts and the forwarded call report is failed with `rerun = 2`. -/
theorem C1_witness :
    repeat_run_attempts itemAF 2 = 3 ∧
    (forward_reports (repeat_run itemAF 2).1 (repeat_run itemAF 2).2).get? 1 =
      some { when := Phase.call, outcome := Outcome.failed,
             rerun := some 2, nodeid := "test_af" } := by
  simpa using C1_always_fail 2 itemAF (fun _ => rfl) (fun _ => rfl) rfl

/-- C2: for `1 ≤ K ≤ N`, on an item that fails its first `K` call attempts
and passes at (zero-based) attempt `K`, `repeat_run` performs exactly
`K + 1` attempts, the forwarded call report is passed with `rerun = K`,
and `pytest_report_teststatus` classifies that report as category `rerun`
with short code `R` and verbose label `RERUN`. -/
theorem C2_fail_then_pass (N K : Nat) (item : Item)
    (hK1 : 1 ≤ K) (hKN : K ≤ N)
    (hs : ∀ j, item.setupResult j = true)
    (hcf : ∀ j, j < K → item.callResult j = false)
    (hcp : item.callResult K = true)
    (hx : item.evalxfail = false) :
    repeat_run_attempts item N = K + 1 ∧
    (forward_reports (repeat_run item N).1 (repeat_run item N).2).get? 1 =
      some { when := Phase.call, outcome := Outcome.passed,
             rerun := some K, nodeid := item.nodeid } ∧
    pytest_report_teststatus
        { when := Phase.call, outcome := Outcome.passed,
          rerun := some K, nodeid := item.nodeid } = some ("rerun", "R", "RERUN") := by
  have h := repeat_run_iters_pass_at item K hs hcf hcp hx N 0 (by omega) (by omega)
  have h2 : (repeat_run item N).1 = runtestprotocol item K := by
    unfold repeat_run
    simpa using h.2 []
  have h3 : (repeat_run item N).2 = K := by
    rw [show (repeat_run item N).2 = (repeat_run_iters item 0 N).length - 1 from rfl, h.1]
    omega
  refine ⟨?_, ?_, ?_⟩
  · rw [show repeat_run_attempts item N = (repeat_run_iters item 0 N).length from rfl, h.1]
    omega
  · rw [h2, h3]
    simp [runtestprotocol, mkReport, PhaseReport.passed, hs K, hcp, forward_reports, hK1]
    omega
  · simp [pytest_report_teststatus, hK1]
    omega

/-- C2 witness: the item that passes from attempt 1 on, under
`reruns = 3`, performs 2 attempts, and the forwarded call report is
passed with `rerun = 1` and classified `rerun`/`R`/`RERUN`. -/
theorem C2_witness :
    repeat_run_attempts itemK1 3 = 2 ∧
    (forward_reports (repeat_run itemK1 3).1 (repeat_run itemK1 3).2).get? 1 =
      some { when := Phase.call, outcome := Outcome.passed,
             rerun := some 1, nodeid := "test_k1" } ∧
    pytest_report_teststatus
        { when := Phase.call, outcome := Outcome.passed,
          rerun := some 1, nodeid := "test_k1" } = some ("rerun", "R", "RERUN") := by
  simpa using C2_fail_then_pass 3 1 itemK1 (by decide) (by decide) (fun _ => rfl)
    (fun j hj => by simp [itemK1]; omega) rfl rfl

/-- C3: on an item with no flaky marker and the repeat-count setting set
(its parsed default is 0, i.e. always set), `pytest_runtest_protocol` does
NOT complete normally via the whole-test strategy: it reads the local
`fixture_once`, which the global-setting branch never assigns, and so
raises `UnboundLocalError` before running any strategy.  This contradicts
the spec (mode `WholeTest`, pause 0, normal completion), which is clearly
the intent: the code is the bug. -/
theorem C3_global_path_unbound_fixture_once (item : Item) (cfg : Config) (n : Nat)
    (hr : cfg.reruns = some n) (hchk : check_options_raises cfg = false) :
    pytest_runtest_protocol item none cfg = ProtocolResult.unboundLocal "fixture_once" := by
  simp [pytest_runtest_protocol, resolve_locals, hr, hchk]

/-- C3 witness: an unmarked item under the default configuration hits the
`fixture_once` UnboundLocalError. -/
theorem C3_witness :
    pytest_runtest_protocol itemAF none cfgDefault =
      ProtocolResult.unboundLocal "fixture_once" :=
  C3_global_path_unbound_fixture_once itemAF cfgDefault 0 rfl rfl

/-- C4: in CallOnly mode, when the setup phase fails, `repeat_test_only`
makes zero call attempts — but it does NOT return normally and never runs
teardown: the `if len(reports) == 1` fix-up reads the never-assigned local
`rep` and raises `UnboundLocalError` before the teardown call.  This
contradicts the spec (proceed directly to teardown, return normally):
the code is the bug. -/
theorem C4_setup_failure_unbound_rep (item : Item) (reruns pause : Nat)
    (hs : item.setupResult 0 = false) :
    (repeat_test_only item reruns pause).result =
      Except.error "UnboundLocalError: rep" ∧
    (repeat_test_only item reruns pause).calls = 0 ∧
    (repeat_test_only item reruns pause).teardowns = 0 := by
  simp [repeat_test_only, mkReport, PhaseReport.passed, hs]

/-- C4 witness: the failing-setup item under `reruns = 3` raises the
`rep` UnboundLocalError with zero calls and zero teardowns. -/
theorem C4_witness :
    (repeat_test_only itemSF 3 0).result = Except.error "UnboundLocalError: rep" ∧
    (repeat_test_only itemSF 3 0).calls = 0 ∧
    (repeat_test_only itemSF 3 0).teardowns = 0 :=
  C4_setup_failure_unbound_rep itemSF 3 0 rfl

/-- C5 (amended): in CallOnly mode with pause `P > 0`, a sleep of `P`
milliseconds follows every failing call attempt when no xfail evaluation
is present — including the final, range-exhausting one — and no sleep
follows a passing attempt; when an xfail evaluation is present the loop
stops after the first attempt with no sleep.  So a run with `m` call
attempts performs one sleep per failing attempt: `m - 1` sleeps when the
final attempt passes, `m` sleeps when every attempt fails. -/
theorem C5_pause_after_each_failing (item : Item) (reruns pause : Nat)
    (hp : 0 < pause) (hs : item.setupResult 0 = true) :
    (item.evalxfail = true → (repeat_test_only item reruns pause).sleeps = 0) ∧
    (item.evalxfail = false →
      (repeat_test_only item reruns pause).sleeps =
        (List.range (repeat_test_only item reruns pause).calls).countP
          (fun j => item.callResult j == false)) := by
  constructor
  · intro hx
    have hz : ∀ fuel i : Nat, (repeat_call_loop item pause i fuel).sleeps = 0 := by
      intro fuel i
      cases fuel <;> cases hcall : item.callResult i <;>
        simp [repeat_call_loop, mkReport, PhaseReport.passed, hcall, hx]
    simp [repeat_test_only, mkReport, PhaseReport.passed, hs, hz]
  · intro hx
    have h := repeat_call_loop_sleeps_countP item pause hp hx reruns 0
    simp only [repeat_test_only, mkReport, PhaseReport.passed, hs]
    rw [List.range_eq_range']
    simpa using h

/-- C5 witness: the always-failing item with `reruns = 2`, `pause = 5`
sleeps once per failing attempt (3 attempts, 3 sleeps). -/
theorem C5_pause_witness :
    (itemAF.evalxfail = true → (repeat_test_only itemAF 2 5).sleeps = 0) ∧
    (itemAF.evalxfail = false →
      (repeat_test_only itemAF 2 5).sleeps =
        (List.range (repeat_test_only itemAF 2 5).calls).countP
          (fun j => itemAF.callResult j == false)) :=
  C5_pause_after_each_failing itemAF 2 5 (by decide) rfl

/-- C5 counterexample to the claim as stated: with `reruns = 0`,
`pause = 5` and an always-failing call, the single (`m = 1`) exhausting
attempt is followed by a sleep, so the run performs 1 sleep, not at most
`m - 1 = 0`. -/
theorem C5_counterexample :
    (repeat_test_only itemAF 0 5).calls = 1 ∧
    ¬ ((repeat_test_only itemAF 0 5).sleeps ≤ (repeat_test_only itemAF 0 5).calls - 1) := by
  decide

/-- C6: with a truthy xfail evaluation on the item, both strategies stop
after the first attempt regardless of pass/fail: `repeat_run` performs
exactly 1 attempt for any repeatCount, and the `repeat_test_only` call
loop performs exactly 1 call when setup passed. -/
theorem C6_xfail_short_circuit (item : Item) (N P : Nat)
    (hx : item.evalxfail = true) :
    repeat_run_attempts item N = 1 ∧
    (item.setupResult 0 = true → (repeat_test_only item N P).calls = 1) := by
  constructor
  · cases N with
    | zero => rfl
    | succ n =>
      rw [show repeat_run_attempts item (n + 1) = (repeat_run_iters item 0 (n + 1)).length
        from rfl]
      simp [repeat_run_iters, repeat_break, hx]
  · intro hsetup
    simp [repeat_test_only, mkReport, PhaseReport.passed, hsetup,
      repeat_call_loop_calls_one item P hx]

/-- C6 witness: the xfail-marked always-failing item with repeatCount 5
performs exactly 1 attempt (not 6) in both strategies. -/
theorem C6_witness :
    repeat_run_attempts itemXF 5 = 1 ∧
    (itemXF.setupResult 0 = true → (repeat_test_only itemXF 5 0).calls = 1) :=
  C6_xfail_short_circuit itemXF 5 0 rfl

/-- C7 (amended): keyword arguments are consulted only when `reruns`
itself is given as a keyword.  If `"reruns" in kwargs`, resolution uses
the keyword arguments exclusively (the positional arguments are ignored)
and yields that reruns value; if `reruns` is not a keyword and positional
arguments are present, resolution uses the positional arguments
exclusively and the keyword `fixture_once`/`pause` are ignored. -/
theorem C7_kw_precedence_only_via_reruns (m : Marker) (cfg : Config)
    (args2 : List Nat) (kf : Option Bool) (kp : Option Nat) :
    (∀ r, m.kw_reruns = some r →
      resolve_locals (some { m with args := args2 }) cfg = resolve_locals (some m) cfg) ∧
    (m.kw_reruns = none → 0 < m.args.length →
      resolve_locals (some { m with kw_fixture_once := kf, kw_pause := kp }) cfg =
        resolve_locals (some m) cfg) ∧
    (∀ r, m.kw_reruns = some r →
      ∃ f p, resolve_locals (some m) cfg = Resolution.resolved (some r) f p) := by
  refine ⟨?_, ?_, ?_⟩
  · intro r hr
    simp [resolve_locals, hr]
  · intro hr hlen
    simp [resolve_locals, hr, hlen]
  · intro r hr
    exact ⟨(if m.kw_fixture_once.isSome then m.kw_fixture_once else some false),
           (if m.kw_pause.isSome then m.kw_pause else some 0),
           by simp [resolve_locals, hr]⟩

/-- C7 witness: with a keyword `reruns` the positional arguments are
ignored; with a positional `reruns` the keyword `fixture_once`/`pause`
are ignored; and a keyword `reruns = 4` resolves to repeat count 4. -/
theorem C7_witness :
    resolve_locals (some { markerKw with args := [] }) cfgDefault =
      resolve_locals (some markerKw) cfgDefault ∧
    resolve_locals (some { markerPos with kw_fixture_once := some true, kw_pause := some 9 })
        cfgDefault = resolve_locals (some markerPos) cfgDefault ∧
    ∃ f p, resolve_locals (some markerKw) cfgDefault = Resolution.resolved (some 4) f p :=
  ⟨(C7_kw_precedence_only_via_reruns markerKw cfgDefault [] none none).1 4 rfl,
   (C7_kw_precedence_only_via_reruns markerPos cfgDefault [] (some true) (some 9)).2.1
     rfl (by decide),
   (C7_kw_precedence_only_via_reruns markerKw cfgDefault [] none none).2.2 4 rfl⟩

/-- C7 counterexample to the claim as stated: for
`flaky(3, fixture_once=True, pause=7)` — repeatCount positional, the
others by keyword — resolution yields `fixture_once = False` and
`pause = 0`: the keyword arguments are NOT honored. -/
theorem C7_counterexample :
    resolve_locals (some markerPosWithKw) cfgDefault =
      Resolution.resolved (some 3) (some false) (some 0) ∧
    Resolution.resolved (some 3) (some false) (some 0) ≠
      Resolution.resolved (some 3) (some true) (some 7) := by
  decide

/-- C8 (amended): the summary emits one `RERUN <node-id>` line per
rerun-classified report for EACH occurrence of `r` or `R` in the
report-character configuration — so exactly one line per report when
exactly one such character is present, duplicates when both are, and no
lines (and no header) when neither is present or the configuration is
empty. -/
theorem C8_one_line_per_report_per_char (reportchars : List Char)
    (stats : List PhaseReport) :
    pytest_terminal_summary reportchars stats =
      (List.replicate (reportchars.countP (fun c => c == 'r' || c == 'R'))
        (stats.map (fun rep => "RERUN " ++ rep.nodeid))).flatten := by
  unfold pytest_terminal_summary
  cases reportchars with
  | nil => simp
  | cons c cs =>
    rw [if_neg (by simp)]
    simpa using foldl_show_rerun stats (c :: cs) []

/-- C8 counterexample to the claim as stated: a configuration containing
both `r` and `R` emits two `RERUN` lines for a single rerun report, not
exactly one. -/
theorem C8_counterexample :
    pytest_terminal_summary ['r', 'R'] [repA] = ["RERUN test_a", "RERUN test_a"] ∧
    (pytest_terminal_summary ['r', 'R'] [repA]).length ≠ 1 := by
  constructor
  · rfl
  · decide

/-- C9: `check_options` raises the usage error
`--reruns incompatible with --pdb` if and only if collect-only mode is
off, the repeat-count option differs from 0, and pdb is enabled; and
whenever it raises, `pytest_runtest_protocol` (on any item whose policy
resolution does not pass through) surfaces exactly that usage error —
before any strategy, and hence any attempt, runs. -/
theorem C9_usage_error_iff (cfg : Config) (item : Item) (marker : Option Marker) :
    (check_options_raises cfg = true ↔
      (cfg.collectonly = false ∧ cfg.reruns ≠ some 0 ∧ cfg.usepdb = true)) ∧
    (check_options_raises cfg = true →
      resolve_locals marker cfg ≠ Resolution.passThrough →
      pytest_runtest_protocol item marker cfg =
        ProtocolResult.usageError "--reruns incompatible with --pdb") := by
  constructor
  · unfold check_options_raises
    by_cases h1 : cfg.collectonly <;> by_cases h2 : cfg.reruns = some 0 <;>
      by_cases h3 : cfg.usepdb <;> simp [h1, h2, h3]
  · intro h hres
    unfold pytest_runtest_protocol
    cases hr : resolve_locals marker cfg with
    | passThrough => exact absurd hr hres
    | resolved a b c => simp [h]

/-- C9 witness: `--reruns 2 --pdb` raises, and the protocol hook returns
the usage error for an unmarked item. -/
theorem C9_witness :
    check_options_raises cfgPdb = true ∧
    resolve_locals none cfgPdb ≠ Resolution.passThrough ∧
    pytest_runtest_protocol itemAF none cfgPdb =
      ProtocolResult.usageError "--reruns incompatible with --pdb" :=
  ⟨by decide, by decide,
    (C9_usage_error_iff cfgPdb itemAF none).2 (by decide) (by decide)⟩

/-- C10: a flaky marker that supplies neither a positional first argument
nor a `reruns` keyword leaves the local `reruns` unassigned, so the
protocol hook fails with `UnboundLocalError` for `reruns` before
executing any attempt — it never falls back to a default repeat count. -/
theorem C10_marker_without_reruns_unbound (item : Item) (cfg : Config) (m : Marker)
    (ha : m.args = []) (hk : m.kw_reruns = none)
    (hchk : check_options_raises cfg = false) :
    pytest_runtest_protocol item (some m) cfg = ProtocolResult.unboundLocal "reruns" := by
  simp [pytest_runtest_protocol, resolve_locals, ha, hk, hchk]

/-- C10 witness: `flaky(fixture_once=True)` alone hits the `reruns`
UnboundLocalError under the default configuration. -/
theorem C10_witness :
    pytest_runtest_protocol itemAF (some markerFixtureOnceOnly) cfgDefault =
      ProtocolResult.unboundLocal "reruns" :=
  C10_marker_without_reruns_unbound itemAF cfgDefault markerFixtureOnceOnly rfl rfl rfl
